import Mathlib

/-!
Shallow embedding of the DuckStation netplay session code
(src/core/netplay.cpp) and proofs about its control-protocol state
machine, packet validation, host start-up, input sampling and desync
checksum window.

Modelling conventions:
  * MAX_PLAYERS is 2 (spec section 6, Constants; netplay.h is not in the
    tree), so the fixed-size arrays s_peers and s_reset_players are
    modelled as a pair of booleans (slot 0, slot 1) accessed through an
    integer index, with out-of-range reads returning false (null) and
    out-of-range writes ignored.
  * Player ids, player counts and ports are s32 in the source; they are
    modelled as Int.  Packet byte counts are Nat.
  * ENet peers are modelled by slot occupancy only (peer handle null or
    not); nicknames, addresses, timers and the GGPO session handle do not
    affect any property proved here and are omitted.
  * Sends are not modelled; each handler is a function from the local
    state (and the received message) to the new local state or outcome.
-/

namespace Netplay

/-- Session states, in the declaration order of the source enum
(Inactive, Initializing, Connecting, Resetting, Running, ClosingSession). -/
inductive SessionState where
  | Inactive
  | Initializing
  | Connecting
  | Resetting
  | Running
  | ClosingSession
deriving DecidableEq, Repr

/-- MAX_PLAYERS: fixed small player limit, 2 in the present design
(spec section 6, Constants). -/
def MAX_PLAYERS : Int := 2

/-- s_host_player_id: set to 0 in Start and never reassigned. -/
def hostPlayerId : Int := 0

/-- Fixed two-slot array (MAX_PLAYERS = 2) standing for the per-player
arrays s_peers (slot occupied = peer handle non-null) and
s_reset_players (slot set = bit set). -/
structure Slots where
  s0 : Bool
  s1 : Bool
deriving DecidableEq, Repr

/-- Read slot i; out-of-range indices read as false (null peer / clear bit). -/
def Slots.get (p : Slots) (i : Int) : Bool :=
  if i = 0 then p.s0 else if i = 1 then p.s1 else false

/-- Write slot i; out-of-range indices are ignored. -/
def Slots.set (p : Slots) (i : Int) (v : Bool) : Slots :=
  if i = 0 then { p with s0 := v }
  else if i = 1 then { p with s1 := v }
  else p

/-- Number of set slots (std::bitset::count, cast to s32 at use sites). -/
def Slots.count (p : Slots) : Int :=
  (if p.s0 then 1 else 0) + (if p.s1 then 1 else 0)

/-- All slots clear (bitset reset / all peers null). -/
def Slots.clear : Slots := ⟨false, false⟩

/-- Local netplay state: the file-scope variables of netplay.cpp that the
verified properties depend on. -/
structure NetState where
  sess : SessionState
  playerId : Int
  numPlayers : Int
  resetPlayers : Slots
  peers : Slots
  cookie : Nat
deriving DecidableEq, Repr

/-- Netplay::IsValidPlayerId: the id is our own, or names an in-range
slot whose peer handle is non-null. -/
def IsValidPlayerId (s : NetState) (i : Int) : Bool :=
  i == s.playerId || (decide (0 ≤ i) && decide (i < MAX_PLAYERS) && s.peers.get i)

/-- Netplay::GetFreePlayerId: first i in [0, MAX_PLAYERS) that is not our
own id and has a null peer; -1 if none. -/
def GetFreePlayerId (s : NetState) : Int :=
  if 0 ≠ s.playerId ∧ s.peers.get 0 = false then 0
  else if 1 ≠ s.playerId ∧ s.peers.get 1 = false then 1
  else -1

/-- Netplay::IsHost: the local player id equals s_host_player_id. -/
def IsHost (s : NetState) : Bool :=
  s.playerId == hostPlayerId

/-- Netplay::IsActive: state is between Initializing and Running in enum
order. -/
def IsActiveState (st : SessionState) : Bool :=
  match st with
  | .Initializing | .Connecting | .Resetting | .Running => true
  | _ => false

/-- Netplay::CheckReceivedPacket, reduced to its size checks: non-null
result (true) iff the packet holds at least sizeof(T) bytes and the
header's declared size field is at least sizeof(T).  dataLength is
pkt->dataLength, hdrSize the header's size field, fixedSize sizeof(T). -/
def CheckReceivedPacket (dataLength hdrSize fixedSize : Nat) : Bool :=
  if dataLength < fixedSize then false
  else if hdrSize < fixedSize then false
  else true

/-! Connection admission (host side): HandleMessageFromNewPeer. -/

/-- ConnectRequestMessage::Mode. -/
inductive ConnectMode where
  | player
  | spectator
deriving DecidableEq, Repr

/-- ConnectRequestMessage: the fields the admission decision reads
(nickname and session_password do not influence it). -/
structure ConnectRequestMsg where
  mode : ConnectMode
  requestedPlayerId : Int
deriving DecidableEq, Repr

/-- ConnectResponseMessage::Result. -/
inductive ConnectResult where
  | success
  | serverFull
  | playerIdInUse
  | sessionClosed
deriving DecidableEq, Repr

/-- Outcome of HandleMessageFromNewPeer: either a rejection response, or
acceptance with the assigned player id (after which the source executes
s_peers[new_player_id].peer = peer, s_num_players++, Reset()). -/
inductive ConnectOutcome where
  | rejected (r : ConnectResult)
  | accepted (playerId : Int)
deriving DecidableEq, Repr

/-- Netplay::HandleMessageFromNewPeer, decision part: mode check, then
in-use check via IsValidPlayerId, then id allocation (requested id when
nonnegative, else GetFreePlayerId), then ServerFull check. -/
def HandleMessageFromNewPeer (s : NetState) (msg : ConnectRequestMsg) : ConnectOutcome :=
  if msg.mode ≠ ConnectMode.player then .rejected .sessionClosed
  else if 0 ≤ msg.requestedPlayerId ∧ IsValidPlayerId s msg.requestedPlayerId = true then
    .rejected .playerIdInUse
  else
    let newPlayerId : Int :=
      if 0 ≤ msg.requestedPlayerId then msg.requestedPlayerId else GetFreePlayerId s
    if newPlayerId < 0 then .rejected .serverFull
    else .accepted newPlayerId

/-! ConnectResponse handling (joiner side): HandleConnectResponseMessage. -/

/-- Outcome of HandleConnectResponseMessage.  The source calls
CheckReceivedPacket but does not test the returned pointer for null
before reading msg->result; nullDeref records that execution path
(dereference of a null pointer on a too-short packet). -/
inductive ConnectResponseOutcome where
  | ignored
  | nullDeref
  | closedWithError
  | assigned (playerId : Int)
deriving DecidableEq, Repr

/-- Netplay::HandleConnectResponseMessage: state check first; then the
packet-size check, whose null result is dereferenced unconditionally
(msg->result); on rejection CloseSessionWithError; on success the
assigned id is stored and the state becomes Resetting. -/
def HandleConnectResponsePacket (dataLength hdrSize fixedSize : Nat) (s : NetState)
    (success : Bool) (pid : Int) : ConnectResponseOutcome :=
  if s.sess ≠ .Connecting then .ignored
  else if CheckReceivedPacket dataLength hdrSize fixedSize = false then .nullDeref
  else if success = false then .closedWithError
  else .assigned pid

/-- State effect of a well-formed ConnectResponse (the body of
HandleConnectResponseMessage after the size check): rejection closes the
session, success stores the assigned id, enters Resetting and clears
s_reset_players. -/
def HandleConnectResponseMessage (s : NetState) (success : Bool) (pid : Int) : NetState :=
  if s.sess ≠ .Connecting then s
  else if success = false then { s with sess := .ClosingSession }
  else { s with playerId := pid, sess := .Resetting, resetPlayers := Slots.clear }

/-! Reset orchestration: Reset (host), HandleResetMessage (joiner),
HandleResetCompleteMessage (host), HandleResumeSessionMessage (joiner). -/

/-- Netplay::Reset state effect (host): increment the reset cookie, enter
Resetting, and set s_reset_players to contain exactly the local player. -/
def Reset (s : NetState) : NetState :=
  { s with sess := .Resetting, cookie := s.cookie + 1,
           resetPlayers := Slots.set Slots.clear s.playerId true }

/-- Roster portion of a ResetMessage: per slot, whether controller_port is
nonnegative (slot present in the roster) and whether the slot's address
matches the existing peer connection (so it can be preserved). -/
structure ResetRoster where
  port0 : Bool
  port1 : Bool
  reuse0 : Bool
  reuse1 : Bool
deriving DecidableEq, Repr

/-- Roster lookup: controller_port ≥ 0 for slot i. -/
def ResetRoster.port (r : ResetRoster) (i : Int) : Bool :=
  if i = 0 then r.port0 else if i = 1 then r.port1 else false

/-- Roster lookup: existing connection's address matches slot i's entry. -/
def ResetRoster.reuse (r : ResetRoster) (i : Int) : Bool :=
  if i = 0 then r.reuse0 else if i = 1 then r.reuse1 else false

/-- Peer-slot update performed by HandleResetMessage's roster loop for
slot i: absent roster entries are disconnected; the local and host slots
are left as they are; a matching connection is preserved; otherwise the
stale peer is reset and the slot is re-dialled only when i is below the
local id (higher ids dial us). -/
def resetPeerSlot (s : NetState) (r : ResetRoster) (i : Int) : Bool :=
  if r.port i = false then false
  else if i = s.playerId then s.peers.get i
  else if i = hostPlayerId then s.peers.get i
  else if s.peers.get i = true ∧ r.reuse i = true then true
  else if s.playerId < i then false
  else true

/-- Netplay::HandleResetMessage state effect (after the sender and size
checks): adopt the message's player count and roster, load the snapshot,
enter Resetting, record the cookie, and set s_reset_players to exactly
the local player. -/
def HandleResetMessage (s : NetState) (sender : Int) (ck : Nat) (np : Int)
    (r : ResetRoster) : NetState :=
  if sender ≠ hostPlayerId then s
  else { s with sess := .Resetting, cookie := ck, numPlayers := np,
                resetPlayers := Slots.set Slots.clear s.playerId true,
                peers := ⟨resetPeerSlot s r 0, resetPeerSlot s r 1⟩ }

/-- Outcome of the size-checked HandleResetMessage: ignored (non-host
sender), closedError (malformed size: CloseSessionWithError reports a
user-visible error and enters ClosingSession), or loaded (the snapshot
bytes were passed to System::LoadStateFromStream). -/
inductive ResetHandlingOutcome where
  | ignored
  | closedError
  | loaded
deriving DecidableEq, Repr

/-- Netplay::HandleResetMessage with its leading checks: the sender must
be the host; then the packet must hold the fixed ResetMessage body
(fixedSize bytes) plus state_data_size (sds) trailing snapshot bytes,
otherwise CloseSessionWithError runs and nothing is loaded. -/
def HandleResetMessageSized (fixedSize dataLength sds : Nat) (sender : Int)
    (ck : Nat) (np : Int) (r : ResetRoster) (s : NetState) :
    NetState × ResetHandlingOutcome :=
  if sender ≠ hostPlayerId then (s, .ignored)
  else if dataLength < fixedSize ∨ dataLength < fixedSize + sds then
    ({ s with sess := .ClosingSession }, .closedError)
  else (HandleResetMessage s sender ck np r, .loaded)

/-- Netplay::HandleResetCompleteMessage (host): reject outside Resetting
or from the host id; drop double completions; drop mismatched cookies
(log only); otherwise set the sender's bit in s_reset_players. -/
def HandleResetCompleteMessage (s : NetState) (sender : Int) (ck : Nat) : NetState :=
  if s.sess ≠ .Resetting ∨ sender = hostPlayerId then s
  else if s.resetPlayers.get sender = true then s
  else if s.cookie ≠ ck then s
  else { s with resetPlayers := s.resetPlayers.set sender true }

/-- Netplay::HandleResumeSessionMessage (joiner): outside Resetting or
from a non-host sender the message is ignored; otherwise a GGPO session
is created and the state becomes Running. -/
def HandleResumeSessionMessage (s : NetState) (sender : Int) : NetState :=
  if s.sess ≠ .Resetting ∨ sender ≠ hostPlayerId then s
  else { s with sess := .Running }

/-! Player dropping: DropPlayer and HandleDropPlayerMessage. -/

/-- DropPlayerMessage body: u8 reason, s16 player_id. -/
structure DropPlayerMsg where
  reason : Nat
  playerId : Int
deriving DecidableEq, Repr

/-- Assertion at the top of Netplay::DropPlayer:
IsValidPlayerId(player_id) and s_host_player_id != player_id and
s_player_id != player_id. -/
def DropPlayerAssert (s : NetState) (pid : Int) : Bool :=
  IsValidPlayerId s pid && pid != hostPlayerId && pid != s.playerId

/-- Netplay::HandleDropPlayerMessage: after the packet check, a message
from a non-host sender is logged and ignored; otherwise the source calls
DropPlayer(player_id, msg->reason) where player_id is the SENDER id (the
msg->player_id field is never read).  The result is the id passed to
DropPlayer, or none when the message is discarded. -/
def HandleDropPlayerMessage (_s : NetState) (sender : Int) (_msg : DropPlayerMsg) :
    Option Int :=
  if sender ≠ hostPlayerId then none
  else some sender

/-! UpdateResetState: the per-iteration work of the Resetting state. -/

/-- One iteration of the host's reset-timeout loop in UpdateResetState:
players that are invalid or already acknowledged are skipped; any other
player is dropped (DropPlayer: peer disconnected and slot cleared,
num_players decremented, then the host path sends DropPlayerMessage and
calls Reset()). -/
def dropTimeoutStep (s : NetState) (i : Int) : NetState :=
  if IsValidPlayerId s i = false ∨ s.resetPlayers.get i = true then s
  else Reset { s with peers := s.peers.set i false, numPlayers := s.numPlayers - 1 }

/-- One iteration of the joiner's connection-scan loop in
UpdateResetState: a valid, not yet acknowledged player whose peer handle
is non-null and connected gets its bit set in s_reset_players. -/
def connectScanStep (connected : Slots) (s : NetState) (i : Int) : NetState :=
  if IsValidPlayerId s i = false ∨ s.resetPlayers.get i = true then s
  else if s.peers.get i = true ∧ connected.get i = true then
    { s with resetPlayers := s.resetPlayers.set i true }
  else s

/-- Netplay::UpdateResetState.  Host: when every player has acknowledged
(count equals num_players) broadcast ResumeSession and enter Running;
otherwise, once the connect timeout has elapsed, drop every
unacknowledged player.  Joiner: while the count differs, mark connected
peers, send ResetComplete once all are connected (a send, not a state
change), and close with an error once twice the connect timeout has
elapsed.  connected gives each peer's ENET_PEER_STATE_CONNECTED flag;
timeout tells whether the respective deadline has passed. -/
def UpdateResetState (s : NetState) (connected : Slots) (timeout : Bool) : NetState :=
  if IsHost s = true then
    if s.resetPlayers.count = s.numPlayers then { s with sess := .Running }
    else if timeout = true then
      (dropTimeoutStep (dropTimeoutStep s 0) 1)
    else s
  else
    if s.resetPlayers.count ≠ s.numPlayers then
      let s1 := connectScanStep connected (connectScanStep connected s 0) 1
      if timeout = true then { s1 with sess := .ClosingSession } else s1
    else s

/-! Control-message alphabet and the step function of the local peer's
state machine, used to state the reset_players invariant. -/

/-- Control messages received by an established peer (without the raw
packet bytes; size-malformed packets are treated separately above). -/
inductive Msg where
  | connectResponse (success : Bool) (assignedId : Int)
  | reset (cookie : Nat) (numPlayers : Int) (roster : ResetRoster)
  | resetComplete (cookie : Nat)
  | resumeSession
  | resetRequest
deriving DecidableEq, Repr

/-- Dispatch of HandleControlMessage for the messages that touch the
reset state.  HandleResetRequestMessage calls Reset() unconditionally. -/
def stepMsg (s : NetState) (sender : Int) : Msg → NetState
  | .connectResponse ok pid => HandleConnectResponseMessage s ok pid
  | .reset ck np r => HandleResetMessage s sender ck np r
  | .resetComplete ck => HandleResetCompleteMessage s sender ck
  | .resumeSession => HandleResumeSessionMessage s sender
  | .resetRequest => Reset s

/-- Events that drive the local reset state: receipt of a control message
from an established peer, the host accepting a new peer
(HandleMessageFromNewPeer success path: slot filled, num_players
incremented, Reset()), and one pass of UpdateResetState. -/
inductive Act where
  | recv (sender : Int) (m : Msg)
  | accept (pid : Int)
  | tick (connected : Slots) (timeout : Bool)
deriving DecidableEq, Repr

/-- Step function of the local peer. -/
def step (s : NetState) : Act → NetState
  | .recv sender m => stepMsg s sender m
  | .accept pid =>
      Reset { s with peers := s.peers.set pid true, numPlayers := s.numPlayers + 1 }
  | .tick connected timeout => UpdateResetState s connected timeout

/-- Well-formedness of a received message, as the spec's wire domains and
the source's assertions demand: a successful ConnectResponse assigns a
non-host id in [0, MAX_PLAYERS); a Reset is only processed by a peer
that already knows its own id (s_reset_players.set(s_player_id) requires
an in-range id) and asserts msg->num_players > 1; ResetRequest leads to
Reset(), which asserts IsHost(). -/
def MsgValid (s : NetState) : Msg → Prop
  | .connectResponse ok pid => ok = true → (0 < pid ∧ pid < MAX_PLAYERS)
  | .reset _ np _ => 0 ≤ s.playerId ∧ s.playerId < MAX_PLAYERS ∧ 2 ≤ np
  | .resetComplete _ => True
  | .resumeSession => True
  | .resetRequest => s.playerId = hostPlayerId

/-- Well-formedness of an event: a message sender is established
(GetPlayerIdForPeer found its non-null slot); acceptance happens on the
host for a free in-range id (the in-range part is exactly what claim C2
shows the source fails to enforce); UpdateResetState runs only in the
Resetting state. -/
def ActValid (s : NetState) : Act → Prop
  | .recv sender m => s.peers.get sender = true ∧ MsgValid s m
  | .accept pid =>
      s.playerId = hostPlayerId ∧ 0 ≤ pid ∧ pid < MAX_PLAYERS ∧
      IsValidPlayerId s pid = false
  | .tick _ _ => s.sess = .Resetting

/-- Inductive invariant of the local reset state.  Its first three
clauses are the spec's invariant (reset_players only holds players whose
roster slot is occupied, hence count ≤ num_players); the remaining
clauses are the strengthening needed to make it inductive: the local
peer's own slot is null; the host's num_players counts exactly the valid
players; a host in Resetting has its own bit set (Reset() set it); any
peer in Resetting knows its own in-range id; a joiner still in
Connecting has no id yet and only the host connection. -/
def Inv (s : NetState) : Prop :=
  (s.resetPlayers.s0 = true → (s.playerId = 0 ∨ s.peers.s0 = true)) ∧
  (s.resetPlayers.s1 = true → (s.playerId = 1 ∨ s.peers.s1 = true)) ∧
  s.resetPlayers.count ≤ s.numPlayers ∧
  s.peers.get s.playerId = false ∧
  (s.playerId = 0 → s.numPlayers = 1 + (if s.peers.s1 then 1 else 0)) ∧
  (s.playerId = 0 → s.sess = .Resetting → s.resetPlayers.s0 = true) ∧
  (s.sess = .Resetting → 0 ≤ s.playerId ∧ s.playerId < MAX_PLAYERS) ∧
  (s.sess = .Connecting → s.peers.s1 = false ∧ s.playerId = -1)

instance (s : NetState) : Decidable (Inv s) := by
  unfold Inv
  infer_instance

instance (s : NetState) (m : Msg) : Decidable (MsgValid s m) := by
  cases m <;> (unfold MsgValid; infer_instance)

instance (s : NetState) (a : Act) : Decidable (ActValid s a) := by
  cases a <;> (unfold ActValid; infer_instance)

/-! Session start (Netplay::Start). -/

/-- Environment outcomes that Start consults: System::IsValid,
CreateSystem success (joiner without a VM), enet_initialize,
enet_host_create, enet_address_set_host and enet_host_connect. -/
structure StartEnv where
  systemValid : Bool
  createSystemOk : Bool
  enetInitOk : Bool
  enetHostCreateOk : Bool
  addrParseOk : Bool
  dialOk : Bool
deriving DecidableEq, Repr

/-- Netplay::Start.  Check-order follows the source: active-session
check, port range check, VM check, enet initialization, enet host
creation; then the hosting branch starts Running immediately as a
single-player session with reset_players = {0}, while the joining branch
parses the host address, dials it into slot s_host_player_id and enters
Connecting with an unknown local id.  Returns none where the source
returns false. -/
def Start (env : StartEnv) (isHosting : Bool) (port : Int) (s : NetState) :
    Option NetState :=
  if IsActiveState s.sess = true then none
  else if port < 0 ∨ 65535 ≤ port then none
  else if env.systemValid = false ∧ isHosting = true then none
  else if env.systemValid = false ∧ isHosting = false ∧ env.createSystemOk = false then none
  else if env.enetInitOk = false then none
  else if env.enetHostCreateOk = false then none
  else if isHosting = true then
    some { sess := .Running, playerId := 0, numPlayers := 1,
           resetPlayers := ⟨true, false⟩, peers := s.peers, cookie := 0 }
  else if env.addrParseOk = false then none
  else if env.dialOk = false then none
  else
    some { sess := .Connecting, playerId := -1, numPlayers := s.numPlayers,
           resetPlayers := Slots.clear, peers := s.peers.set hostPlayerId true,
           cookie := 0 }

/-! Local input sampling (Netplay::ReadLocalInput). -/

/-- Netplay::ReadLocalInput: starting from button_data = 0, for every
binding i below the digital-controller button count, OR in bit i when
the Input Provider's value for controller slot 0, binding i is at least
0.25 (the float literal 0.25f is exactly 1/4; input magnitudes are
modelled as exact rationals, over which the comparison is the same
order comparison the source performs). -/
def ReadLocalInput (btnCount : Nat) (inp : Nat → Nat → ℚ) : Nat :=
  (List.range btnCount).foldl
    (fun acc i => if (1 / 4 : ℚ) ≤ inp 0 i then acc ||| (1 <<< i) else acc) 0

/-! Desync checksum window (Netplay::GenerateChecksumForFrame). -/

/-- Sliding window size of the desync checksum: 4096 * 4 bytes. -/
def slidingWindowSize : Nat := 4096 * 4

/-- Window-start arithmetic of Netplay::GenerateChecksumForFrame: the
checksum hashes slidingWindowSize bytes starting at
(frame mod (buffer_size / slidingWindowSize)) * slidingWindowSize.
The function computes this without any guard on buffer_size. -/
def GenerateChecksumWindowStart (frame bufferSize : Nat) : Nat :=
  (frame % (bufferSize / slidingWindowSize)) * slidingWindowSize

/-! Concrete states used to instantiate the theorems below. -/

/-- Host alone right after a hosting Start: Running, id 0, one player,
reset_players = {0}, no peers. -/
def hostSolo : NetState :=
  { sess := .Running, playerId := 0, numPlayers := 1,
    resetPlayers := ⟨true, false⟩, peers := Slots.clear, cookie := 0 }

/-- Joiner during the connection handshake: Connecting, id unknown, the
dialled host connection in slot 0. -/
def joinerConnecting : NetState :=
  { sess := .Connecting, playerId := -1, numPlayers := 0,
    resetPlayers := Slots.clear, peers := ⟨true, false⟩, cookie := 0 }

/-- Joiner running a two-player session as player 1. -/
def joinerRunning : NetState :=
  { sess := .Running, playerId := 1, numPlayers := 2,
    resetPlayers := ⟨true, true⟩, peers := ⟨true, false⟩, cookie := 1 }

/-- Joiner that has just processed a Reset: Resetting as player 1,
reset_players = {1}, host connection live. -/
def joinerResetting : NetState :=
  { sess := .Resetting, playerId := 1, numPlayers := 2,
    resetPlayers := ⟨false, true⟩, peers := ⟨true, false⟩, cookie := 1 }

/-- Host mid-reset of a two-player session: Resetting, reset cookie 5,
own bit set, peer 1 connected but not yet acknowledged. -/
def hostResetting : NetState :=
  { sess := .Resetting, playerId := 0, numPlayers := 2,
    resetPlayers := ⟨true, false⟩, peers := ⟨false, true⟩, cookie := 5 }

/-! Theorems for the frozen claims. -/

/-- C1: a non-host peer receiving DropPlayer from the host is claimed to
drop exactly the player named by the message's player_id field.  The
source instead passes the SENDER id (necessarily the host id, 0) to
DropPlayer and never reads msg->player_id: at a concrete Running joiner
state, the id handed to DropPlayer is 0, differs from the message's
player_id 1, and violates DropPlayer's own assertion
s_host_player_id != player_id. -/
theorem c1_drop_player_passes_sender_id :
    HandleDropPlayerMessage joinerRunning 0 ⟨0, 1⟩ = some 0 ∧
    (⟨0, 1⟩ : DropPlayerMsg).playerId = 1 ∧
    DropPlayerAssert joinerRunning 0 = false := by
  decide

/-- C2: every accepted ConnectRequest is claimed to be assigned an id in
[0, MAX_PLAYERS).  A request claiming player id 2 sent to a host with
one free slot is accepted with id 2, which is not below MAX_PLAYERS = 2:
IsValidPlayerId rejects out-of-range ids as not-in-use, and the
allocation keeps any nonnegative requested id, so the subsequent
s_peers[new_player_id] write indexes past the array. -/
theorem c2_connect_accepts_out_of_range_id :
    HandleMessageFromNewPeer hostSolo ⟨.player, 2⟩ = .accepted 2 ∧
    ¬((2 : Int) < MAX_PLAYERS) := by
  decide

/-- C3: a too-short non-Reset control packet is claimed to be logged and
discarded without a crash; the claim singles out a short ConnectResponse
received while Connecting.  HandleConnectResponseMessage never tests
CheckReceivedPacket's result for null before reading msg->result, so a
ConnectResponse of 5 bytes (larger than the 4-byte header that the
HandleControlMessage dispatch requires, smaller than the fixed message
body) dereferences a null pointer instead of being discarded. -/
theorem c3_short_connect_response_null_deref :
    HandleConnectResponsePacket 5 5 8 joinerConnecting true 1 = .nullDeref ∧
    CheckReceivedPacket 5 5 8 = false := by
  decide

/-- C4 counterexample: the claim says a ResetComplete with a mismatched
cookie makes the host drop the sender via DropPlayer and start a fresh
Reset.  At a concrete Resetting host state with cookie 5, a
ResetComplete bearing cookie 4 from connected player 1 leaves the state
completely unchanged: player 1's peer slot stays occupied and the reset
cookie is not advanced, so no DropPlayer and no fresh Reset happen. -/
theorem c4_cookie_mismatch_claim_false :
    HandleResetCompleteMessage hostResetting 1 4 = hostResetting ∧
    (4 : Nat) ≠ hostResetting.cookie ∧
    ¬((HandleResetCompleteMessage hostResetting 1 4).peers.get 1 = false ∧
      (HandleResetCompleteMessage hostResetting 1 4).cookie = hostResetting.cookie + 1) := by
  decide

/-- C4 amended: a ResetComplete whose cookie differs from the current
reset cookie is logged and discarded: the handler returns the state
unchanged, so in particular the sender's bit in reset_players is never
set, no player is dropped and no new Reset is initiated. -/
theorem c4_cookie_mismatch_discarded (s : NetState) (sender : Int) (ck : Nat)
    (h : ck ≠ s.cookie) :
    HandleResetCompleteMessage s sender ck = s := by
  unfold HandleResetCompleteMessage
  split_ifs with h1 h2 h3
  · rfl
  · rfl
  · rfl
  · exact absurd (not_ne_iff.mp h3).symm h

/-- C4 witness: the amended theorem applied at the concrete mismatching
input of the counterexample state. -/
theorem c4_cookie_mismatch_discarded_witness :
    (4 : Nat) ≠ hostResetting.cookie ∧
    HandleResetCompleteMessage hostResetting 1 4 = hostResetting :=
  ⟨by decide, c4_cookie_mismatch_discarded hostResetting 1 4 (by decide)⟩

/-- C6: a Reset from the host whose declared state_data_size exceeds the
bytes left in the packet (equivalently, whose packet is shorter than the
fixed ResetMessage body plus state_data_size; a packet shorter than the
fixed body alone is a special case) is rejected before any loading: the
handler reports a user-visible error and enters ClosingSession, every
other field of the local state is unchanged, and the snapshot is never
handed to the Machine. -/
theorem c6_malformed_reset_rejected (fixedSize dataLength sds : Nat) (ck : Nat)
    (np : Int) (r : ResetRoster) (s : NetState)
    (h : dataLength < fixedSize + sds) :
    HandleResetMessageSized fixedSize dataLength sds hostPlayerId ck np r s =
      ({ s with sess := .ClosingSession }, .closedError) := by
  unfold HandleResetMessageSized
  simp [h]

/-- C6 witness: a Reset declaring 64 snapshot bytes inside a 100-byte
packet whose fixed body is 48 bytes (48 + 64 > 100) closes the session
with an error and loads nothing. -/
theorem c6_malformed_reset_rejected_witness :
    (100 : Nat) < 48 + 64 ∧
    HandleResetMessageSized 48 100 64 hostPlayerId 7 2 ⟨true, true, true, true⟩
        joinerResetting =
      ({ joinerResetting with sess := .ClosingSession }, .closedError) :=
  ⟨by decide,
   c6_malformed_reset_rejected 48 100 64 7 2 ⟨true, true, true, true⟩
     joinerResetting (by decide)⟩

/-- C10: whenever the snapshot buffer holds at least one 16384-byte
window, the divisor buffer_size / 16384 computed by
GenerateChecksumForFrame is nonzero and the window starting at
(frame mod (buffer_size / 16384)) * 16384 lies entirely inside the
buffer; the function itself contains no guard, so this size
precondition is what makes the modulo well-defined. -/
theorem c10_checksum_window_in_bounds (frame bufferSize : Nat)
    (h : slidingWindowSize ≤ bufferSize) :
    0 < bufferSize / slidingWindowSize ∧
    GenerateChecksumWindowStart frame bufferSize + slidingWindowSize ≤ bufferSize := by
  have hw : 0 < slidingWindowSize := by decide
  have hdiv : 0 < bufferSize / slidingWindowSize := Nat.div_pos h hw
  refine ⟨hdiv, ?_⟩
  unfold GenerateChecksumWindowStart
  have hmod : frame % (bufferSize / slidingWindowSize) + 1 ≤ bufferSize / slidingWindowSize :=
    Nat.mod_lt frame hdiv
  calc
    frame % (bufferSize / slidingWindowSize) * slidingWindowSize + slidingWindowSize
        = (frame % (bufferSize / slidingWindowSize) + 1) * slidingWindowSize := by ring
    _ ≤ (bufferSize / slidingWindowSize) * slidingWindowSize :=
        Nat.mul_le_mul_right _ hmod
    _ ≤ bufferSize := Nat.div_mul_le_self _ _

/-- C10 witness: a 40000-byte snapshot at frame 5 gives divisor 2 and a
window [16384, 32768) inside the buffer. -/
theorem c10_checksum_window_in_bounds_witness :
    slidingWindowSize ≤ 40000 ∧
    (0 < 40000 / slidingWindowSize ∧
     GenerateChecksumWindowStart 5 40000 + slidingWindowSize ≤ 40000) :=
  ⟨by decide, c10_checksum_window_in_bounds 5 40000 (by decide)⟩

/-- C8: Start invoked as host with a valid port, a valid Machine and a
working transport environment succeeds and leaves the session Running
with num_players = 1, reset_players = {0} (bit 0 only), local player id
0, and IsHost() true. -/
theorem c8_host_start (env : StartEnv) (port : Int) (s : NetState)
    (h1 : env.systemValid = true) (h2 : env.enetInitOk = true)
    (h3 : env.enetHostCreateOk = true) (h4 : IsActiveState s.sess = false)
    (h5 : 0 ≤ port) (h6 : port < 65535) :
    Start env true port s =
      some { sess := .Running, playerId := 0, numPlayers := 1,
             resetPlayers := ⟨true, false⟩, peers := s.peers, cookie := 0 } ∧
    IsHost { sess := SessionState.Running, playerId := 0, numPlayers := 1,
             resetPlayers := ⟨true, false⟩, peers := s.peers, cookie := 0 } = true := by
  have hp : ¬(port < 0 ∨ 65535 ≤ port) := by omega
  constructor
  · simp [Start, h1, h2, h3, h4, hp]
  · simp [IsHost, hostPlayerId]

/-- C8 witness: hosting on port 37000 from the Inactive state with a
valid Machine and healthy transport. -/
theorem c8_host_start_witness :
    Start ⟨true, true, true, true, true, true⟩ true 37000
        { sess := .Inactive, playerId := 0, numPlayers := 0,
          resetPlayers := Slots.clear, peers := Slots.clear, cookie := 0 } =
      some { sess := .Running, playerId := 0, numPlayers := 1,
             resetPlayers := ⟨true, false⟩, peers := Slots.clear, cookie := 0 } ∧
    IsHost { sess := SessionState.Running, playerId := 0, numPlayers := 1,
             resetPlayers := ⟨true, false⟩, peers := Slots.clear, cookie := 0 } = true :=
  c8_host_start ⟨true, true, true, true, true, true⟩ 37000
    { sess := .Inactive, playerId := 0, numPlayers := 0,
      resetPlayers := Slots.clear, peers := Slots.clear, cookie := 0 }
    rfl rfl rfl rfl (by decide) (by decide)

/-- Unrolling of ReadLocalInput over the last binding. -/
theorem readLocalInput_succ (n : Nat) (inp : Nat → Nat → ℚ) :
    ReadLocalInput (n + 1) inp =
      if (1 / 4 : ℚ) ≤ inp 0 n then ReadLocalInput n inp ||| (1 <<< n)
      else ReadLocalInput n inp := by
  unfold ReadLocalInput
  rw [List.range_succ, List.foldl_append]
  simp

/-- The sampled word only uses the low btnCount bits. -/
theorem readLocalInput_lt (n : Nat) (inp : Nat → Nat → ℚ) :
    ReadLocalInput n inp < 2 ^ n := by
  induction n with
  | zero => simp [ReadLocalInput]
  | succ n ih =>
      rw [readLocalInput_succ]
      have hle : ReadLocalInput n inp < 2 ^ (n + 1) :=
        lt_of_lt_of_le ih (Nat.pow_le_pow_right (by omega) (by omega))
      split_ifs
      · have hb : (1 <<< n) < 2 ^ (n + 1) := by
          rw [Nat.shiftLeft_eq, one_mul]
          exact Nat.pow_lt_pow_right (by omega) (by omega)
        exact Nat.or_lt_two_pow hle hb
      · exact hle

/-- Bit i of the sampled word is exactly the threshold test on slot 0,
binding i. -/
theorem readLocalInput_testBit (n i : Nat) (inp : Nat → Nat → ℚ) (h : i < n) :
    ((ReadLocalInput n inp).testBit i = true) ↔ (1 / 4 : ℚ) ≤ inp 0 i := by
  induction n with
  | zero => omega
  | succ n ih =>
      rw [readLocalInput_succ]
      rcases Nat.lt_succ_iff_lt_or_eq.mp h with h' | h'
      · have hb : (1 <<< n).testBit i = false := by
          rw [Nat.shiftLeft_eq, one_mul]
          exact Nat.testBit_two_pow_of_ne (by omega)
        split_ifs
        · rw [Nat.testBit_or, hb]
          simpa using ih h'
        · exact ih h'
      · subst h'
        have h1 : (ReadLocalInput i inp).testBit i = false :=
          Nat.testBit_lt_two_pow (readLocalInput_lt i inp)
        have h2 : (1 <<< i).testBit i = true := by
          rw [Nat.shiftLeft_eq, one_mul]
          exact Nat.testBit_two_pow_self
        split_ifs with hc
        · rw [Nat.testBit_or, h1, h2]
          simpa using hc
        · rw [h1]
          simpa using hc

/-- Values on controller slots other than 0 never influence the sampled
word. -/
theorem readLocalInput_slot_zero_only (n : Nat) (f g : Nat → Nat → ℚ)
    (h : f 0 = g 0) :
    ReadLocalInput n f = ReadLocalInput n g := by
  induction n with
  | zero => rfl
  | succ n ih => rw [readLocalInput_succ, readLocalInput_succ, ih, h]

/-- C9: for every binding i below the digital-controller button count,
bit i of the locally sampled input word is set iff the Input Provider's
value for controller slot 0, binding i is at least 0.25; and the sampled
word depends only on slot 0's values. -/
theorem c9_read_local_input (btnCount : Nat) (inp : Nat → Nat → ℚ) (i : Nat)
    (h : i < btnCount) :
    (((ReadLocalInput btnCount inp).testBit i = true) ↔ (1 / 4 : ℚ) ≤ inp 0 i) ∧
    (∀ f g : Nat → Nat → ℚ, f 0 = g 0 →
      ReadLocalInput btnCount f = ReadLocalInput btnCount g) :=
  ⟨readLocalInput_testBit btnCount i inp h,
   fun f g hfg => readLocalInput_slot_zero_only btnCount f g hfg⟩

/-- Concrete Input Provider sample: binding 2 pressed on every slot. -/
def sampleInput : Nat → Nat → ℚ := fun _ b => if b = 2 then 1 else 0

/-- C9 witness: the characterization applied at binding 2 of the 14
digital-controller buttons for a concrete input assignment. -/
theorem c9_read_local_input_witness :
    2 < 14 ∧
    ((((ReadLocalInput 14 sampleInput).testBit 2 = true) ↔
        (1 / 4 : ℚ) ≤ sampleInput 0 2) ∧
     (∀ f g : Nat → Nat → ℚ, f 0 = g 0 →
        ReadLocalInput 14 f = ReadLocalInput 14 g)) :=
  ⟨by decide, c9_read_local_input 14 sampleInput 2 (by decide)⟩

/-! Invariant preservation, one lemma per event kind. -/

/-- Slot counts are nonnegative. -/
theorem Slots.count_nonneg (p : Slots) : 0 ≤ p.count := by
  unfold Slots.count
  split_ifs <;> omega

/-- Slot counts are at most MAX_PLAYERS. -/
theorem Slots.count_le_two (p : Slots) : p.count ≤ 2 := by
  unfold Slots.count
  split_ifs <;> omega

/-- A well-formed ConnectResponse preserves the invariant. -/
theorem inv_connectResponse (s : NetState) (ok : Bool) (pid : Int)
    (hInv : Inv s) (hok : ok = true → 0 < pid ∧ pid < MAX_PLAYERS) :
    Inv (HandleConnectResponseMessage s ok pid) := by
  obtain ⟨i1, i2, i3, i4, i5, i6, i7, i8⟩ := hInv
  have hc0 := Slots.count_nonneg s.resetPlayers
  unfold HandleConnectResponseMessage
  split_ifs with h1 h2
  · exact ⟨i1, i2, i3, i4, i5, i6, i7, i8⟩
  · exact ⟨i1, i2, i3, i4, i5, by simp, by simp, by simp⟩
  · have hsc : s.sess = .Connecting := not_not.mp h1
    have hoktrue : ok = true := by revert h2; cases ok <;> simp
    obtain ⟨hp1, hp2⟩ := hok hoktrue
    obtain ⟨h81, h82⟩ := i8 hsc
    have hpid : pid = 1 := by
      have : MAX_PLAYERS = 2 := rfl
      omega
    subst hpid
    refine ⟨by simp [Slots.clear], by simp [Slots.clear], ?_, ?_, by simp, by simp, ?_, by simp⟩
    · simp only [Slots.clear, Slots.count]
      simp
      omega
    · simp [Slots.get, h81]
    · intro
      exact ⟨by simp, by simp [MAX_PLAYERS]⟩

/-- A Reset from the host preserves the invariant (well-formed sizes; the
local id is known and in range, and the message's player count respects
the source's num_players > 1 assertion). -/
theorem inv_reset (s : NetState) (sender : Int) (ck : Nat) (np : Int)
    (r : ResetRoster) (hInv : Inv s) (hsend : s.peers.get sender = true)
    (hpid0 : 0 ≤ s.playerId) (hpid2 : s.playerId < MAX_PLAYERS) (hnp : 2 ≤ np) :
    Inv (HandleResetMessage s sender ck np r) := by
  obtain ⟨i1, i2, i3, i4, i5, i6, i7, i8⟩ := hInv
  unfold HandleResetMessage
  split_ifs with h1
  · exact ⟨i1, i2, i3, i4, i5, i6, i7, i8⟩
  · have hs0 : sender = 0 := by simpa [hostPlayerId] using not_not.mp h1
    have hmp : MAX_PLAYERS = 2 := rfl
    have hcase : s.playerId = 0 ∨ s.playerId = 1 := by omega
    rcases hcase with hp | hp
    · exfalso
      rw [hs0] at hsend
      rw [hp] at i4
      simp [i4] at hsend
    · have i4' : s.peers.get 1 = false := by rw [hp] at i4; exact i4
      refine ⟨?_, ?_, ?_, ?_, ?_, ?_, ?_, ?_⟩
      · simp [hp, Slots.set, Slots.clear]
      · intro _
        exact Or.inl hp
      · simp [hp, Slots.set, Slots.clear, Slots.count]
        omega
      · simp [hp, Slots.get, resetPeerSlot]
        intro _
        simpa [Slots.get] using i4'
      · simp [hp]
      · simp [hp]
      · intro _
        exact ⟨hpid0, hpid2⟩
      · simp

/-- A ResetComplete from an established peer preserves the invariant. -/
theorem inv_resetComplete (s : NetState) (sender : Int) (ck : Nat)
    (hInv : Inv s) (hsend : s.peers.get sender = true) :
    Inv (HandleResetCompleteMessage s sender ck) := by
  obtain ⟨i1, i2, i3, i4, i5, i6, i7, i8⟩ := hInv
  unfold HandleResetCompleteMessage
  split_ifs with h1 h2 h3
  · exact ⟨i1, i2, i3, i4, i5, i6, i7, i8⟩
  · exact ⟨i1, i2, i3, i4, i5, i6, i7, i8⟩
  · exact ⟨i1, i2, i3, i4, i5, i6, i7, i8⟩
  · obtain ⟨h1a, h1b⟩ := not_or.mp h1
    have hsess : s.sess = .Resetting := not_not.mp h1a
    have hs1 : sender = 1 := by
      unfold Slots.get at hsend
      split_ifs at hsend with e0 e1
      · exact absurd e0 (by simpa [hostPlayerId] using h1b)
      · exact e1
    subst hs1
    have hpeer1 : s.peers.s1 = true := by simpa [Slots.get] using hsend
    obtain ⟨hq0, hq2⟩ := i7 hsess
    have hmp : MAX_PLAYERS = 2 := rfl
    have hcase : s.playerId = 0 ∨ s.playerId = 1 := by omega
    rcases hcase with hp | hp
    · have hnum : s.numPlayers = 2 := by
        have h5 := i5 hp
        rw [hpeer1] at h5
        simpa using h5
      have hrp1 : s.resetPlayers.s1 = false := by
        cases hb : s.resetPlayers.s1
        · rfl
        · exact absurd (by simp [Slots.get, hb]) h2
      refine ⟨?_, ?_, ?_, ?_, ?_, ?_, ?_, ?_⟩
      · simpa [Slots.set] using i1
      · intro _
        exact Or.inr hpeer1
      · simp [Slots.set, Slots.count, hrp1, hnum]
        split_ifs <;> omega
      · exact i4
      · exact i5
      · intro ha hb
        simpa [Slots.set] using i6 ha hb
      · intro _
        exact ⟨hq0, hq2⟩
      · intro hcon
        simp [hsess] at hcon
    · exfalso
      rw [hp] at i4
      simp [Slots.get] at i4
      simp [i4] at hpeer1

/-- A ResumeSession preserves the invariant. -/
theorem inv_resume (s : NetState) (sender : Int) (hInv : Inv s) :
    Inv (HandleResumeSessionMessage s sender) := by
  obtain ⟨i1, i2, i3, i4, i5, i6, i7, i8⟩ := hInv
  unfold HandleResumeSessionMessage
  split_ifs with h1
  · exact ⟨i1, i2, i3, i4, i5, i6, i7, i8⟩
  · exact ⟨i1, i2, i3, i4, i5, by simp, by simp, by simp⟩

/-- Reset() on the host preserves the invariant. -/
theorem inv_Reset_host (s : NetState) (hInv : Inv s) (hp : s.playerId = 0) :
    Inv (Reset s) := by
  obtain ⟨i1, i2, i3, i4, i5, i6, i7, i8⟩ := hInv
  have hnum := i5 hp
  refine ⟨?_, ?_, ?_, ?_, ?_, ?_, ?_, ?_⟩
  · intro _
    exact Or.inl hp
  · simp [Reset, hp, Slots.set, Slots.clear]
  · simp [Reset, hp, Slots.set, Slots.clear, Slots.count]
    split_ifs at hnum <;> omega
  · exact i4
  · exact i5
  · intro _ _
    simp [Reset, hp, Slots.set, Slots.clear]
  · intro _
    simp [Reset, hp, MAX_PLAYERS]
  · simp [Reset]

/-- Accepting a new in-range free player on the host preserves the
invariant. -/
theorem inv_accept (s : NetState) (pid : Int) (hInv : Inv s)
    (hp : s.playerId = hostPlayerId) (h0 : 0 ≤ pid) (h2 : pid < MAX_PLAYERS)
    (hfree : IsValidPlayerId s pid = false) :
    Inv (step s (.accept pid)) := by
  obtain ⟨i1, i2, i3, i4, i5, i6, i7, i8⟩ := hInv
  have hp0 : s.playerId = 0 := by simpa [hostPlayerId] using hp
  have hmp : MAX_PLAYERS = 2 := rfl
  have hne : pid ≠ s.playerId := by
    intro he
    rw [he] at hfree
    simp [IsValidPlayerId] at hfree
  have hpid1 : pid = 1 := by omega
  subst hpid1
  have hpeer1 : s.peers.s1 = false := by
    have : s.peers.get 1 = false := by
      cases hb : s.peers.get 1
      · rfl
      · exfalso
        rw [IsValidPlayerId] at hfree
        simp [hb, MAX_PLAYERS] at hfree
    simpa [Slots.get] using this
  have hnum := i5 hp0
  rw [hpeer1] at hnum
  simp at hnum
  refine ⟨?_, ?_, ?_, ?_, ?_, ?_, ?_, ?_⟩
  · intro _
    exact Or.inl hp0
  · simp [step, Reset, hp0, Slots.set, Slots.clear]
  · simp [step, Reset, hp0, Slots.set, Slots.clear, Slots.count]
    omega
  · simp [step, Reset, hp0, Slots.set, Slots.get]
    have : s.peers.get 0 = false := by rw [← hp0]; exact i4
    simpa [Slots.get] using this
  · intro _
    simp [step, Reset, Slots.set, hnum]
  · intro _ _
    simp [step, Reset, hp0, Slots.set, Slots.clear]
  · intro _
    simp [step, Reset, hp0, MAX_PLAYERS]
  · simp [step, Reset]

/-- The host's drop loop skips the host's own slot whenever the host's
bit is already set. -/
theorem dropTimeoutStep_skip_zero (s : NetState) (h : s.resetPlayers.s0 = true) :
    dropTimeoutStep s 0 = s := by
  unfold dropTimeoutStep
  simp [Slots.get, h]

/-- The joiner's connection scan never sets its own bit: the local slot's
peer handle is null. -/
theorem connectScanStep_self_slot (c : Slots) (u : NetState)
    (hu : u.peers.s1 = false) : connectScanStep c u 1 = u := by
  unfold connectScanStep
  split_ifs with hc hc2
  · rfl
  · exfalso
    obtain ⟨hpeer, _⟩ := hc2
    simp [Slots.get, hu] at hpeer
  · rfl

/-- One pass of UpdateResetState preserves the invariant. -/
theorem inv_tick (s : NetState) (connected : Slots) (timeout : Bool)
    (hInv : Inv s) (hsess : s.sess = .Resetting) :
    Inv (UpdateResetState s connected timeout) := by
  obtain ⟨i1, i2, i3, i4, i5, i6, i7, i8⟩ := hInv
  obtain ⟨hq0, hq2⟩ := i7 hsess
  have hmp : MAX_PLAYERS = 2 := rfl
  unfold UpdateResetState
  split_ifs with hhost hcnt htmo hcnt2 htmo2
  · -- host, all acknowledged: enter Running
    exact ⟨i1, i2, i3, i4, i5, by simp, by simp, by simp⟩
  · -- host, timeout: drop loop
    have hpid : s.playerId = 0 := by simpa [IsHost, hostPlayerId] using hhost
    rw [dropTimeoutStep_skip_zero s (i6 hpid hsess)]
    unfold dropTimeoutStep
    split_ifs with hc
    · exact ⟨i1, i2, i3, i4, i5, i6, i7, i8⟩
    · obtain ⟨hvalid, hrp1⟩ := not_or.mp hc
      have hpeer1 : s.peers.s1 = true := by
        have hv : IsValidPlayerId s 1 = true := by
          cases hb : IsValidPlayerId s 1
          · exact absurd hb hvalid
          · rfl
        rw [IsValidPlayerId] at hv
        simp [hpid, MAX_PLAYERS, Slots.get] at hv
        exact hv
      have hnum : s.numPlayers = 2 := by
        have h5 := i5 hpid
        rw [hpeer1] at h5
        simpa using h5
      refine ⟨?_, ?_, ?_, ?_, ?_, ?_, ?_, ?_⟩
      · intro _
        exact Or.inl hpid
      · simp [Reset, hpid, Slots.set, Slots.clear]
      · simp [Reset, hpid, Slots.set, Slots.clear, Slots.count, hnum]
      · simp [Reset, hpid, Slots.set, Slots.get]
        have : s.peers.get 0 = false := by rw [← hpid]; exact i4
        simpa [Slots.get] using this
      · intro _
        simp [Reset, Slots.set, hnum]
      · intro _ _
        simp [Reset, hpid, Slots.set, Slots.clear]
      · intro _
        simp [Reset, hpid, MAX_PLAYERS]
      · simp [Reset]
  · -- host, waiting
    exact ⟨i1, i2, i3, i4, i5, i6, i7, i8⟩
  · -- joiner, count differs, timeout: scan then close
    have hpid : s.playerId = 1 := by
      have hne : ¬(s.playerId = 0) := by
        intro h
        simp [IsHost, hostPlayerId, h] at hhost
      omega
    have hpeer1 : s.peers.s1 = false := by
      have := i4
      rw [hpid] at this
      simpa [Slots.get] using this
    rw [connectScanStep_self_slot connected _ (by
      unfold connectScanStep
      split_ifs <;> simpa [Slots.get] using hpeer1)]
    unfold connectScanStep
    split_ifs with hc hc2
    · exact ⟨i1, i2, i3, i4, i5, by simp [hpid], by simp, by simp⟩
    · obtain ⟨hvalid, hrp0⟩ := not_or.mp hc
      obtain ⟨hpeer0, _⟩ := hc2
      have hrp0' : s.resetPlayers.s0 = false := by
        cases hb : s.resetPlayers.s0
        · rfl
        · exact absurd (by simp [Slots.get, hb]) hrp0
      refine ⟨?_, ?_, ?_, ?_, ?_, ?_, ?_, ?_⟩
      · intro _
        exact Or.inr (by simpa [Slots.get] using hpeer0)
      · intro hb
        exact i2 (by simpa [Slots.set] using hb)
      · simp [Slots.set, Slots.count, hrp0']
        have hcount : s.resetPlayers.count =
            (if s.resetPlayers.s1 = true then 1 else 0) := by
          simp [Slots.count, hrp0']
        split_ifs with hb <;> simp [hb] at hcount <;> omega
      · exact i4
      · intro hb
        exact absurd hb (by simp [hpid])
      · intro hb
        exact absurd hb (by simp [hpid])
      · simp
      · simp
    · exact ⟨i1, i2, i3, i4, i5, by simp [hpid], by simp, by simp⟩
  · -- joiner, count differs, no timeout: scan only
    have hpid : s.playerId = 1 := by
      have hne : ¬(s.playerId = 0) := by
        intro h
        simp [IsHost, hostPlayerId, h] at hhost
      omega
    have hpeer1 : s.peers.s1 = false := by
      have := i4
      rw [hpid] at this
      simpa [Slots.get] using this
    rw [connectScanStep_self_slot connected _ (by
      unfold connectScanStep
      split_ifs <;> simpa [Slots.get] using hpeer1)]
    unfold connectScanStep
    split_ifs with hc hc2
    · exact ⟨i1, i2, i3, i4, i5, i6, i7, i8⟩
    · obtain ⟨hvalid, hrp0⟩ := not_or.mp hc
      obtain ⟨hpeer0, _⟩ := hc2
      have hrp0' : s.resetPlayers.s0 = false := by
        cases hb : s.resetPlayers.s0
        · rfl
        · exact absurd (by simp [Slots.get, hb]) hrp0
      refine ⟨?_, ?_, ?_, ?_, ?_, ?_, ?_, ?_⟩
      · intro _
        exact Or.inr (by simpa [Slots.get] using hpeer0)
      · intro hb
        exact i2 (by simpa [Slots.set] using hb)
      · simp [Slots.set, Slots.count, hrp0']
        have hcount : s.resetPlayers.count =
            (if s.resetPlayers.s1 = true then 1 else 0) := by
          simp [Slots.count, hrp0']
        split_ifs with hb <;> simp [hb] at hcount <;> omega
      · exact i4
      · intro hb
        exact absurd hb (by simp [hpid])
      · intro hb
        exact absurd hb (by simp [hpid])
      · intro _
        exact ⟨hq0, hq2⟩
      · simp [hsess]
    · exact ⟨i1, i2, i3, i4, i5, i6, i7, i8⟩
  · -- joiner, all marked
    exact ⟨i1, i2, i3, i4, i5, i6, i7, i8⟩

/-- The host's drop loop never leaves the Resetting state. -/
theorem dropTimeoutStep_sess_resetting (u : NetState) (i : Int)
    (hu : u.sess = .Resetting) : (dropTimeoutStep u i).sess = .Resetting := by
  unfold dropTimeoutStep
  split_ifs
  · exact hu
  · rfl

/-- The joiner's connection scan does not change the session state. -/
theorem connectScanStep_sess (c : Slots) (u : NetState) (i : Int) :
    (connectScanStep c u i).sess = u.sess := by
  unfold connectScanStep
  split_ifs <;> rfl

/-- C5 amended: over any sequence of well-formed control events, the
invariant holds: reset_players only ever contains players whose roster
slot is occupied (their own slot or a live peer slot), so
reset_players.count() ≤ num_players; and a peer in Resetting moves to
Running only through the host's UpdateResetState pass with
reset_players.count() = num_players, or through receipt of a
ResumeSession from the host — the latter without any condition on the
local count (which is what falsifies the claim as stated). -/
theorem c5_reset_players_invariant (s : NetState) (a : Act)
    (hInv : Inv s) (hv : ActValid s a) :
    Inv (step s a) ∧
    (s.sess = .Resetting → (step s a).sess = .Running →
      a = .recv hostPlayerId .resumeSession ∨
      ∃ c t, a = .tick c t ∧ IsHost s = true ∧
        s.resetPlayers.count = s.numPlayers) := by
  constructor
  · cases a with
    | recv sender m =>
        obtain ⟨hsend, hmsg⟩ := hv
        cases m with
        | connectResponse ok pid => exact inv_connectResponse s ok pid hInv hmsg
        | reset ck np r =>
            obtain ⟨hm1, hm2, hm3⟩ := hmsg
            exact inv_reset s sender ck np r hInv hsend hm1 hm2 hm3
        | resetComplete ck => exact inv_resetComplete s sender ck hInv hsend
        | resumeSession => exact inv_resume s sender hInv
        | resetRequest =>
            have hp : s.playerId = 0 := by simpa [hostPlayerId] using hmsg
            exact inv_Reset_host s hInv hp
    | accept pid =>
        obtain ⟨hp, h0, h2, hfree⟩ := hv
        exact inv_accept s pid hInv hp h0 h2 hfree
    | tick connected timeout => exact inv_tick s connected timeout hInv hv
  · intro hsess hrun
    cases a with
    | recv sender m =>
        cases m with
        | connectResponse ok pid =>
            exfalso
            simp only [step, stepMsg] at hrun
            unfold HandleConnectResponseMessage at hrun
            rw [if_pos (by simp [hsess])] at hrun
            rw [hsess] at hrun
            cases hrun
        | reset ck np r =>
            exfalso
            simp only [step, stepMsg] at hrun
            unfold HandleResetMessage at hrun
            split_ifs at hrun
            rw [hsess] at hrun
            cases hrun
        | resetComplete ck =>
            exfalso
            simp only [step, stepMsg] at hrun
            unfold HandleResetCompleteMessage at hrun
            split_ifs at hrun <;> simp [hsess] at hrun
        | resumeSession =>
            left
            simp only [step, stepMsg] at hrun
            unfold HandleResumeSessionMessage at hrun
            split_ifs at hrun with hcond
            · rw [hsess] at hrun
              cases hrun
            · obtain ⟨_, hhostSender⟩ := not_or.mp hcond
              rw [not_not.mp hhostSender]
        | resetRequest =>
            exfalso
            simp only [step, stepMsg, Reset] at hrun
            cases hrun
    | accept pid =>
        exfalso
        simp only [step, Reset] at hrun
        cases hrun
    | tick connected timeout =>
        simp only [step] at hrun
        unfold UpdateResetState at hrun
        split_ifs at hrun with hh hc htm hc2 htm2
        · exact Or.inr ⟨connected, timeout, rfl, hh, hc⟩
        · exfalso
          have h1 : (dropTimeoutStep s 0).sess = .Resetting :=
            dropTimeoutStep_sess_resetting s 0 hsess
          have h2 : (dropTimeoutStep (dropTimeoutStep s 0) 1).sess = .Resetting :=
            dropTimeoutStep_sess_resetting _ 1 h1
          rw [h2] at hrun
          cases hrun
        · exfalso
          rw [hsess] at hrun
          cases hrun
        · exfalso
          rw [connectScanStep_sess, connectScanStep_sess, hsess] at hrun
          cases hrun
        · exfalso
          rw [hsess] at hrun
          cases hrun

/-- C5 counterexample: the claim that a peer transitions from Resetting
to Running only when reset_players.count() equals num_players fails on
the joiner: in a reachable, invariant-satisfying joiner state with
count 1 and num_players 2, a ResumeSession from the host moves the
session to Running. -/
theorem c5_resume_without_full_count :
    joinerResetting.sess = .Resetting ∧
    Inv joinerResetting ∧
    ActValid joinerResetting (.recv 0 .resumeSession) ∧
    (step joinerResetting (.recv 0 .resumeSession)).sess = .Running ∧
    joinerResetting.resetPlayers.count ≠ joinerResetting.numPlayers := by
  decide

/-- C5 witness: the amended theorem applied to a concrete host state in
Resetting with one unacknowledged peer and an UpdateResetState pass. -/
theorem c5_reset_players_invariant_witness :
    Inv hostResetting ∧ ActValid hostResetting (Act.tick Slots.clear false) ∧
    (Inv (step hostResetting (Act.tick Slots.clear false)) ∧
     (hostResetting.sess = .Resetting →
      (step hostResetting (Act.tick Slots.clear false)).sess = .Running →
      Act.tick Slots.clear false = Act.recv hostPlayerId Msg.resumeSession ∨
      ∃ c t, Act.tick Slots.clear false = Act.tick c t ∧
        IsHost hostResetting = true ∧
        hostResetting.resetPlayers.count = hostResetting.numPlayers)) :=
  ⟨by decide, by decide,
   c5_reset_players_invariant hostResetting (Act.tick Slots.clear false)
     (by decide) (by decide)⟩

end Netplay
